import Mathlib

/-!
A shallow embedding of the leave-request approval workflow from
`leave_app` (models.py, permissions.py, views.py), together with proofs
of the spec's claims about the transition endpoints, the permission
layer and the visibility filter.
-/

namespace LeaveApp

/-- Roles from `User.ROLE_CHOICES` in models.py. -/
inductive Role
  | employee
  | manager
  | hr
deriving DecidableEq, Repr

/-- A user row: primary key, role, and the nullable self-referential
`manager` foreign key (stored as the manager's primary key). -/
structure User where
  id : Nat
  role : Role
  manager : Option Nat
deriving DecidableEq, Repr

/-- Statuses from `LeaveRequest.STATUS_CHOICES` in models.py. -/
inductive Status
  | draft
  | submitted
  | approved_manager
  | approved_hr
  | rejected
  | cancelled
deriving DecidableEq, Repr

/-- A leave request row: primary key, the owning employee (with that
row's role and manager reference), and the status field. -/
structure LeaveRequest where
  id : Nat
  employee : User
  status : Status
deriving DecidableEq, Repr

/-- One `LeaveTransition` audit row: the leave request it references,
the action label, and the acting user's primary key (nullable). -/
structure LeaveTransition where
  leave_request : Nat
  act : String
  by_user : Option Nat
deriving DecidableEq, Repr

/-- The persistent state an endpoint call touches: the leave request row
and the list of its audit records, newest first. -/
structure St where
  req : LeaveRequest
  log : List LeaveTransition
deriving DecidableEq, Repr

/-- The four transition endpoints of `LeaveRequestViewSet`. -/
inductive ActionKind
  | submit
  | approve
  | reject
  | cancel
deriving DecidableEq, Repr

/-- Outcome of an endpoint call: HTTP 200 with the serialized entity, or
an error response with an HTTP status code and a detail message. -/
inductive HttpResp
  | ok
  | err (code : Nat) (detail : String)
deriving DecidableEq, Repr

/-- LeaveRequestViewSet.get_queryset (views.py lines 117-123): hr sees
all requests, a manager sees requests whose owner's manager is the
caller or whose owner is the caller, anyone else sees only their own. -/
def visible (u : User) (lr : LeaveRequest) : Bool :=
  match u.role with
  | Role.hr => true
  | Role.manager => decide (lr.employee.manager = some u.id) || decide (lr.employee.id = u.id)
  | Role.employee => decide (lr.employee.id = u.id)

/-- Object-level permission for the transition endpoints, combining
`get_permissions` (views.py lines 128-140) with the permission classes
in permissions.py.  `cancel` uses IsOwnerOrReadOnly; `approve`/`reject`
use IsManagerOfEmployee for a manager caller, IsHR for an hr caller and
the IsAuthenticated fallback otherwise; `submit` uses the viewset
default IsAuthenticated. -/
def hasObjectPermission (a : ActionKind) (caller : User) (lr : LeaveRequest) : Bool :=
  match a with
  | ActionKind.cancel =>
      decide (lr.employee.id = caller.id) || decide (caller.role = Role.hr)
  | ActionKind.approve | ActionKind.reject =>
      match caller.role with
      | Role.manager =>
          decide (lr.employee.manager = some caller.id) || decide (caller.role = Role.hr)
      | Role.hr => true
      | Role.employee => true
  | ActionKind.submit => true

/-- LeaveRequestViewSet.submit (views.py lines 169-181): only a draft
request can be submitted; on success the status becomes submitted and
one "submitted" audit record is created. -/
def submitAction (caller : User) (s : St) : HttpResp × St :=
  if s.req.status ≠ Status.draft then
    (HttpResp.err 400 "Can only submit draft requests.", s)
  else
    let req' := { s.req with status := Status.submitted }
    (HttpResp.ok,
     { req := req',
       log := { leave_request := req'.id, act := "submitted", by_user := some caller.id } :: s.log })

/-- LeaveRequestViewSet.approve (views.py lines 211-237): on a submitted
request a matching manager yields approved_manager, hr yields
approved_hr, anyone else gets 403; on a manager-approved request hr
yields approved_hr; every other call gets the 400 status error. -/
def approveAction (caller : User) (s : St) : HttpResp × St :=
  if s.req.status = Status.submitted then
    if caller.role = Role.manager ∧ s.req.employee.manager = some caller.id then
      let req' := { s.req with status := Status.approved_manager }
      (HttpResp.ok,
       { req := req',
         log := { leave_request := req'.id, act := "approved by manager", by_user := some caller.id } :: s.log })
    else if caller.role = Role.hr then
      let req' := { s.req with status := Status.approved_hr }
      (HttpResp.ok,
       { req := req',
         log := { leave_request := req'.id, act := "approved by HR", by_user := some caller.id } :: s.log })
    else
      (HttpResp.err 403 "Not allowed.", s)
  else if s.req.status = Status.approved_manager ∧ caller.role = Role.hr then
    let req' := { s.req with status := Status.approved_hr }
    (HttpResp.ok,
     { req := req',
       log := { leave_request := req'.id, act := "approved by HR", by_user := some caller.id } :: s.log })
  else
    (HttpResp.err 400 "Invalid status for approval.", s)

/-- LeaveRequestViewSet.reject (views.py lines 261-275): the nested ifs
of the source collapse to one conjunction because both failure paths
fall through to the same 400 response. -/
def rejectAction (caller : User) (s : St) : HttpResp × St :=
  if (s.req.status = Status.submitted ∨ s.req.status = Status.approved_manager)
      ∧ (caller.role = Role.manager ∨ caller.role = Role.hr) then
    let req' := { s.req with status := Status.rejected }
    (HttpResp.ok,
     { req := req',
       log := { leave_request := req'.id, act := "rejected", by_user := some caller.id } :: s.log })
  else
    (HttpResp.err 400 "Invalid status or permission for rejection.", s)

/-- LeaveRequestViewSet.cancel (views.py lines 299-312): a single joint
check of status (not terminal) and ownership, one generic 400 failure. -/
def cancelAction (caller : User) (s : St) : HttpResp × St :=
  if (s.req.status ≠ Status.approved_hr ∧ s.req.status ≠ Status.rejected
        ∧ s.req.status ≠ Status.cancelled)
      ∧ s.req.employee.id = caller.id then
    let req' := { s.req with status := Status.cancelled }
    (HttpResp.ok,
     { req := req',
       log := { leave_request := req'.id, act := "cancelled", by_user := some caller.id } :: s.log })
  else
    (HttpResp.err 400 "Cannot cancel this request.", s)

/-- The full endpoint pipeline: DRF resolves `self.get_object()` against
the filtered queryset (404 when the request is not visible), then checks
object permissions (403), then runs the action body. -/
def dispatch (a : ActionKind) (caller : User) (s : St) : HttpResp × St :=
  if ¬ visible caller s.req then
    (HttpResp.err 404 "No LeaveRequest matches the given query.", s)
  else if ¬ hasObjectPermission a caller s.req then
    (HttpResp.err 403 "You do not have permission to perform this action.", s)
  else
    match a with
    | ActionKind.submit => submitAction caller s
    | ActionKind.approve => approveAction caller s
    | ActionKind.reject => rejectAction caller s
    | ActionKind.cancel => cancelAction caller s

/-- Modelled from the spec (section 4.2 transition table): the
table-specified new status for an action, given the caller and the
request, or none when no table row matches.  This definition follows
the spec's words and is compared against the source-derived `dispatch`
in the C2 refinement theorem. -/
def specTableNewStatus (a : ActionKind) (caller : User) (lr : LeaveRequest) : Option Status :=
  match a with
  | ActionKind.submit =>
      if lr.status = Status.draft then some Status.submitted else none
  | ActionKind.approve =>
      if lr.status = Status.submitted ∧ caller.role = Role.manager
          ∧ lr.employee.manager = some caller.id then
        some Status.approved_manager
      else if lr.status = Status.submitted ∧ caller.role = Role.hr then
        some Status.approved_hr
      else if lr.status = Status.approved_manager ∧ caller.role = Role.hr then
        some Status.approved_hr
      else none
  | ActionKind.reject =>
      if (lr.status = Status.submitted ∨ lr.status = Status.approved_manager)
          ∧ (caller.role = Role.manager ∨ caller.role = Role.hr) then
        some Status.rejected
      else none
  | ActionKind.cancel =>
      if (lr.status ≠ Status.approved_hr ∧ lr.status ≠ Status.rejected
            ∧ lr.status ≠ Status.cancelled)
          ∧ lr.employee.id = caller.id then
        some Status.cancelled
      else none

/-- Concrete users and states used by the witnesses and counterexamples:
an employee (id 1) managed by a manager (id 2), and an hr user (id 3). -/
def uEmp : User := { id := 1, role := Role.employee, manager := some 2 }

def uMgr : User := { id := 2, role := Role.manager, manager := none }

def uHr : User := { id := 3, role := Role.hr, manager := none }

def mkReq (st : Status) : LeaveRequest := { id := 10, employee := uEmp, status := st }

def mkSt (st : Status) : St := { req := mkReq st, log := [] }

/-- C1: on a submitted request, a matching manager's approve yields
approved_manager with an "approved by manager" record; an hr approve on
a submitted request yields approved_hr with an "approved by HR" record;
an hr approve on a manager-approved request yields approved_hr with an
"approved by HR" record.  The branch ordering of the source is reflected
in these outcomes (the branches are mutually exclusive because a caller
has exactly one role). -/
theorem approve_table_c1 (caller : User) (s : St) :
    (s.req.status = Status.submitted → caller.role = Role.manager →
      s.req.employee.manager = some caller.id →
      dispatch ActionKind.approve caller s =
        (HttpResp.ok,
         { req := { s.req with status := Status.approved_manager },
           log := { leave_request := s.req.id, act := "approved by manager",
                    by_user := some caller.id } :: s.log }))
    ∧ (s.req.status = Status.submitted → caller.role = Role.hr →
      dispatch ActionKind.approve caller s =
        (HttpResp.ok,
         { req := { s.req with status := Status.approved_hr },
           log := { leave_request := s.req.id, act := "approved by HR",
                    by_user := some caller.id } :: s.log }))
    ∧ (s.req.status = Status.approved_manager → caller.role = Role.hr →
      dispatch ActionKind.approve caller s =
        (HttpResp.ok,
         { req := { s.req with status := Status.approved_hr },
           log := { leave_request := s.req.id, act := "approved by HR",
                    by_user := some caller.id } :: s.log })) := by
  refine ⟨?_, ?_, ?_⟩
  · intro hst hrole hmgr
    simp [dispatch, visible, hasObjectPermission, approveAction, hst, hrole, hmgr]
  · intro hst hrole
    simp [dispatch, visible, hasObjectPermission, approveAction, hst, hrole]
  · intro hst hrole
    simp [dispatch, visible, hasObjectPermission, approveAction, hst, hrole]

/-- Witness for C1: the manager of employee 1 approves the submitted
request, producing approved_manager and the "approved by manager"
record. -/
theorem approve_table_c1_witness :
    dispatch ActionKind.approve uMgr (mkSt Status.submitted) =
      (HttpResp.ok,
       { req := { mkReq Status.submitted with status := Status.approved_manager },
         log := [{ leave_request := 10, act := "approved by manager", by_user := some 2 }] }) :=
  (approve_table_c1 uMgr (mkSt Status.submitted)).1 rfl rfl rfl

/-- C2: a successful transition appends exactly one audit record
referencing the request and sets the status to the value the spec's
transition table specifies; a failed transition of any error kind
leaves the state unchanged. -/
theorem transition_atomicity_c2 (a : ActionKind) (caller : User) (s : St) :
    ((dispatch a caller s).1 = HttpResp.ok →
      ∃ rec, (dispatch a caller s).2.log = rec :: s.log
        ∧ rec.leave_request = s.req.id
        ∧ some (dispatch a caller s).2.req.status = specTableNewStatus a caller s.req)
    ∧ ((dispatch a caller s).1 ≠ HttpResp.ok → (dispatch a caller s).2 = s) := by
  cases a <;>
    simp only [dispatch, submitAction, approveAction, rejectAction, cancelAction,
      specTableNewStatus] <;>
    split_ifs <;>
    simp_all

/-- Witness for C2: the owner submits a draft request; one record is
appended and the status matches the table. -/
theorem transition_atomicity_c2_witness :
    ∃ rec, (dispatch ActionKind.submit uEmp (mkSt Status.draft)).2.log
        = rec :: (mkSt Status.draft).log
      ∧ rec.leave_request = (mkSt Status.draft).req.id
      ∧ some (dispatch ActionKind.submit uEmp (mkSt Status.draft)).2.req.status
        = specTableNewStatus ActionKind.submit uEmp (mkSt Status.draft).req :=
  (transition_atomicity_c2 ActionKind.submit uEmp (mkSt Status.draft)).1 rfl

/-- C5: once a request is in a terminal status (approved_hr, rejected or
cancelled), no transition endpoint ever succeeds for any caller, and the
state is left unchanged. -/
theorem terminal_frozen_c5 (a : ActionKind) (caller : User) (s : St)
    (h : s.req.status = Status.approved_hr ∨ s.req.status = Status.rejected
      ∨ s.req.status = Status.cancelled) :
    (dispatch a caller s).1 ≠ HttpResp.ok ∧ (dispatch a caller s).2 = s := by
  cases a <;>
    simp only [dispatch, submitAction, approveAction, rejectAction, cancelAction] <;>
    split_ifs <;>
    rcases h with h | h | h <;>
    simp_all

/-- Witness for C5: the owner's cancel on an hr-approved request fails
and changes nothing (the final step of the spec's Scenario A). -/
theorem terminal_frozen_c5_witness :
    (dispatch ActionKind.cancel uEmp (mkSt Status.approved_hr)).1 ≠ HttpResp.ok
      ∧ (dispatch ActionKind.cancel uEmp (mkSt Status.approved_hr)).2
        = mkSt Status.approved_hr :=
  terminal_frozen_c5 ActionKind.cancel uEmp (mkSt Status.approved_hr) (Or.inl rfl)

/-- C6: for a submit call that reaches the handler (the request is
visible to the caller; submit's permission check is the IsAuthenticated
default), a draft request becomes submitted with one "submitted" record,
and any other status yields the 400 status error with the state
unchanged. -/
theorem submit_c6 (caller : User) (s : St) (hvis : visible caller s.req = true) :
    (s.req.status = Status.draft →
      dispatch ActionKind.submit caller s =
        (HttpResp.ok,
         { req := { s.req with status := Status.submitted },
           log := { leave_request := s.req.id, act := "submitted",
                    by_user := some caller.id } :: s.log }))
    ∧ (s.req.status ≠ Status.draft →
      dispatch ActionKind.submit caller s =
        (HttpResp.err 400 "Can only submit draft requests.", s)) := by
  constructor
  · intro hdraft
    simp [dispatch, hasObjectPermission, submitAction, hvis, hdraft]
  · intro hnot
    simp [dispatch, hasObjectPermission, submitAction, hvis, hnot]

/-- Witness for C6: the owner submits their own draft request. -/
theorem submit_c6_witness :
    dispatch ActionKind.submit uEmp (mkSt Status.draft) =
      (HttpResp.ok,
       { req := { mkReq Status.draft with status := Status.submitted },
         log := [{ leave_request := 10, act := "submitted", by_user := some 1 }] }) :=
  (submit_c6 uEmp (mkSt Status.draft) rfl).1 rfl

/-- C8: for a reject call that reaches the handler (visible and
permitted), a submitted or manager-approved request is rejected by a
manager or hr caller with one "rejected" record; a reject on a draft,
hr-approved or cancelled request yields the 400 status error with the
state unchanged. -/
theorem reject_c8 (caller : User) (s : St)
    (hvis : visible caller s.req = true)
    (hperm : hasObjectPermission ActionKind.reject caller s.req = true) :
    ((s.req.status = Status.submitted ∨ s.req.status = Status.approved_manager) →
      (caller.role = Role.manager ∨ caller.role = Role.hr) →
      dispatch ActionKind.reject caller s =
        (HttpResp.ok,
         { req := { s.req with status := Status.rejected },
           log := { leave_request := s.req.id, act := "rejected",
                    by_user := some caller.id } :: s.log }))
    ∧ ((s.req.status = Status.draft ∨ s.req.status = Status.approved_hr
          ∨ s.req.status = Status.cancelled) →
      dispatch ActionKind.reject caller s =
        (HttpResp.err 400 "Invalid status or permission for rejection.", s)) := by
  constructor
  · intro hst hrole
    simp [dispatch, rejectAction, hvis, hperm, hst, hrole]
  · intro hst
    rcases hst with h | h | h <;>
      simp [dispatch, rejectAction, hvis, hperm, h]

/-- Witness for C8: the employee's manager rejects the submitted
request. -/
theorem reject_c8_witness :
    dispatch ActionKind.reject uMgr (mkSt Status.submitted) =
      (HttpResp.ok,
       { req := { mkReq Status.submitted with status := Status.rejected },
         log := [{ leave_request := 10, act := "rejected", by_user := some 2 }] }) :=
  (reject_c8 uMgr (mkSt Status.submitted) rfl rfl).1 (Or.inl rfl) (Or.inl rfl)

/-- C9: hr sees every request; a manager sees exactly their own requests
and those of their direct reports; an employee sees exactly their own;
hence another employee's request is never visible unless the caller is
that employee's manager or has the hr role. -/
theorem visibility_c9 (u : User) (lr : LeaveRequest) :
    (u.role = Role.hr → visible u lr = true)
    ∧ (u.role = Role.manager →
        (visible u lr = true ↔
          (lr.employee.manager = some u.id ∨ lr.employee.id = u.id)))
    ∧ (u.role = Role.employee →
        (visible u lr = true ↔ lr.employee.id = u.id))
    ∧ (visible u lr = true → lr.employee.id ≠ u.id →
        u.role = Role.hr ∨ (u.role = Role.manager ∧ lr.employee.manager = some u.id)) := by
  obtain ⟨i, r, m⟩ := u
  cases r <;> (simp [visible]; try tauto)

/-- Witness for C9: hr sees the employee's request, which the employee
with a different id does not own. -/
theorem visibility_c9_witness :
    visible uHr (mkReq Status.draft) = true :=
  (visibility_c9 uHr (mkReq Status.draft)).1 rfl

/-- C10: an approve call on a manager-approved request by a non-hr
caller who passes visibility and the permission layer (the owning
employee via the IsAuthenticated fallback, or the employee's manager)
fails with HTTP 400 "Invalid status for approval.", not 403, and the
state is unchanged. -/
theorem approve_wrong_status_c10 (caller : User) (s : St)
    (hst : s.req.status = Status.approved_manager)
    (hnothr : caller.role ≠ Role.hr)
    (hvis : visible caller s.req = true)
    (hperm : hasObjectPermission ActionKind.approve caller s.req = true) :
    dispatch ActionKind.approve caller s =
      (HttpResp.err 400 "Invalid status for approval.", s) := by
  simp [dispatch, approveAction, hvis, hperm, hst, hnothr]

/-- Witness for C10: the owning employee calls approve on their own
manager-approved request and receives the 400 status error. -/
theorem approve_wrong_status_c10_witness :
    dispatch ActionKind.approve uEmp (mkSt Status.approved_manager) =
      (HttpResp.err 400 "Invalid status for approval.", mkSt Status.approved_manager) :=
  approve_wrong_status_c10 uEmp (mkSt Status.approved_manager) rfl (by decide) rfl rfl

/-- Counterexample to C3 as stated: the owning employee (role neither
manager nor hr) invokes reject on their own submitted request and
receives HTTP 400, not the claimed authorization error 403. -/
theorem errors_c3_counterexample :
    dispatch ActionKind.reject uEmp (mkSt Status.submitted) =
      (HttpResp.err 400 "Invalid status or permission for rejection.",
       mkSt Status.submitted) := rfl

/-- C3 amended: for approve the two error kinds are distinct (an
employee-role caller on a visible submitted request gets 403, a caller
reaching the handler in a wrong status gets 400), and a manager who is
not the employee's manager is stopped with 403 by the permission layer
for reject; but inside the reject handler an employee-role caller gets
the same HTTP 400 response as a wrong-status call, so reject conflates
the role failure with the status failure. -/
theorem errors_c3_amended (caller : User) (s : St) :
    (s.req.status = Status.submitted → caller.role = Role.employee →
      visible caller s.req = true →
      dispatch ActionKind.approve caller s = (HttpResp.err 403 "Not allowed.", s))
    ∧ ((s.req.status = Status.draft ∨ s.req.status = Status.approved_hr
          ∨ s.req.status = Status.rejected ∨ s.req.status = Status.cancelled) →
      visible caller s.req = true →
      hasObjectPermission ActionKind.approve caller s.req = true →
      dispatch ActionKind.approve caller s =
        (HttpResp.err 400 "Invalid status for approval.", s))
    ∧ (caller.role = Role.manager → s.req.employee.manager ≠ some caller.id →
      visible caller s.req = true →
      dispatch ActionKind.reject caller s =
        (HttpResp.err 403 "You do not have permission to perform this action.", s))
    ∧ (caller.role = Role.employee → visible caller s.req = true →
      dispatch ActionKind.reject caller s =
        (HttpResp.err 400 "Invalid status or permission for rejection.", s)) := by
  refine ⟨?_, ?_, ?_, ?_⟩
  · intro hst hrole hvis
    simp [dispatch, hasObjectPermission, approveAction, hst, hrole, hvis]
  · intro hst hvis hperm
    rcases hst with h | h | h | h <;>
      simp [dispatch, approveAction, hvis, hperm, h]
  · intro hrole hmgr hvis
    simp [dispatch, hasObjectPermission, hvis, hrole, hmgr]
  · intro hrole hvis
    simp [dispatch, hasObjectPermission, rejectAction, hvis, hrole]

/-- Witness for C3 amended: the owning employee calls approve on their
own submitted request and receives the 403 authorization error. -/
theorem errors_c3_amended_witness :
    dispatch ActionKind.approve uEmp (mkSt Status.submitted) =
      (HttpResp.err 403 "Not allowed.", mkSt Status.submitted) :=
  (errors_c3_amended uEmp (mkSt Status.submitted)).1 rfl rfl rfl

/-- Counterexample to C4 as stated: the employee's manager (a non-owner
caller) calls cancel on the submitted request and receives HTTP 403 from
the permission layer, not the claimed generic HTTP 400. -/
theorem cancel_c4_counterexample :
    dispatch ActionKind.cancel uMgr (mkSt Status.submitted) =
      (HttpResp.err 403 "You do not have permission to perform this action.",
       mkSt Status.submitted) := rfl

/-- C4 amended: the owner cancelling in a non-terminal status succeeds
with one "cancelled" record; the owner in a terminal status and an
hr-role non-owner in any status fail with the single generic HTTP 400
"Cannot cancel this request."; a non-owner without the hr role never
reaches the handler and fails with 404 (not visible) or 403 (permission
denied). -/
theorem cancel_c4_amended (caller : User) (s : St) :
    ((s.req.status ≠ Status.approved_hr ∧ s.req.status ≠ Status.rejected
        ∧ s.req.status ≠ Status.cancelled) →
      s.req.employee.id = caller.id →
      dispatch ActionKind.cancel caller s =
        (HttpResp.ok,
         { req := { s.req with status := Status.cancelled },
           log := { leave_request := s.req.id, act := "cancelled",
                    by_user := some caller.id } :: s.log }))
    ∧ ((s.req.status = Status.approved_hr ∨ s.req.status = Status.rejected
          ∨ s.req.status = Status.cancelled) →
      s.req.employee.id = caller.id →
      dispatch ActionKind.cancel caller s =
        (HttpResp.err 400 "Cannot cancel this request.", s))
    ∧ (caller.role = Role.hr → s.req.employee.id ≠ caller.id →
      dispatch ActionKind.cancel caller s =
        (HttpResp.err 400 "Cannot cancel this request.", s))
    ∧ (caller.role ≠ Role.hr → s.req.employee.id ≠ caller.id →
      ((dispatch ActionKind.cancel caller s).1
          = HttpResp.err 404 "No LeaveRequest matches the given query."
        ∨ (dispatch ActionKind.cancel caller s).1
          = HttpResp.err 403 "You do not have permission to perform this action.")
        ∧ (dispatch ActionKind.cancel caller s).2 = s) := by
  refine ⟨?_, ?_, ?_, ?_⟩
  · intro hst hown
    have hvis : visible caller s.req = true := by
      cases hrole : caller.role <;> simp [visible, hown, hrole]
    simp [dispatch, hasObjectPermission, cancelAction, hvis, hown, hst]
  · intro hst hown
    have hvis : visible caller s.req = true := by
      cases hrole : caller.role <;> simp [visible, hown, hrole]
    rcases hst with h | h | h <;>
      simp [dispatch, hasObjectPermission, cancelAction, hvis, hown, h]
  · intro hrole hown
    simp [dispatch, visible, hasObjectPermission, cancelAction, hrole, hown]
  · intro hrole hown
    by_cases hvis : visible caller s.req = true
    · have hperm : hasObjectPermission ActionKind.cancel caller s.req = false := by
        simp [hasObjectPermission, hrole, hown]
      simp [dispatch, hvis, hperm]
    · simp [dispatch, hvis]

/-- Witness for C4 amended: the owner cancels their own draft request. -/
theorem cancel_c4_amended_witness :
    dispatch ActionKind.cancel uEmp (mkSt Status.draft) =
      (HttpResp.ok,
       { req := { mkReq Status.draft with status := Status.cancelled },
         log := [{ leave_request := 10, act := "cancelled", by_user := some 1 }] }) :=
  (cancel_c4_amended uEmp (mkSt Status.draft)).1 (by decide) rfl

/-- Counterexample to C7 as stated: the employee's manager, who is not
the owning employee, successfully submits the employee's draft request,
moving it to submitted. -/
theorem submit_access_c7_counterexample :
    (dispatch ActionKind.submit uMgr (mkSt Status.draft)).1 = HttpResp.ok
      ∧ (dispatch ActionKind.submit uMgr (mkSt Status.draft)).2.req.status
        = Status.submitted := ⟨rfl, rfl⟩

/-- C7 amended: the access-control layer restricts submit only to
callers who can see the request: a caller who cannot see it fails with
404, and an employee-role non-owner can never see it; but the owning
employee's manager and any hr-role caller can successfully submit a
draft request, so submit is not restricted to the owner. -/
theorem submit_access_c7_amended (caller : User) (s : St) :
    (visible caller s.req = false →
      dispatch ActionKind.submit caller s =
        (HttpResp.err 404 "No LeaveRequest matches the given query.", s))
    ∧ (caller.role = Role.employee → s.req.employee.id ≠ caller.id →
      visible caller s.req = false)
    ∧ (caller.role = Role.manager → s.req.employee.manager = some caller.id →
      s.req.status = Status.draft →
      (dispatch ActionKind.submit caller s).1 = HttpResp.ok)
    ∧ (caller.role = Role.hr → s.req.status = Status.draft →
      (dispatch ActionKind.submit caller s).1 = HttpResp.ok) := by
  refine ⟨?_, ?_, ?_, ?_⟩
  · intro hvis
    simp [dispatch, hvis]
  · intro hrole hown
    simp [visible, hrole, hown]
  · intro hrole hmgr hdraft
    simp [dispatch, visible, hasObjectPermission, submitAction, hrole, hmgr, hdraft]
  · intro hrole hdraft
    simp [dispatch, visible, hasObjectPermission, submitAction, hrole, hdraft]

/-- Witness for C7 amended: an unrelated employee (id 4) cannot see the
request and their submit call fails with 404. -/
theorem submit_access_c7_amended_witness :
    dispatch ActionKind.submit { id := 4, role := Role.employee, manager := some 2 }
        (mkSt Status.draft) =
      (HttpResp.err 404 "No LeaveRequest matches the given query.", mkSt Status.draft) :=
  (submit_access_c7_amended { id := 4, role := Role.employee, manager := some 2 }
    (mkSt Status.draft)).1 rfl

end LeaveApp
